import Mathlib

/-!
Verification development for the persistent-connection management core of the
AICHAT repository: the server-side `WebSocketService` (registry of
authenticated connections keyed by user id, heartbeat sweep, targeted and
broadcast delivery) and the client-side `WebSocketService` (reconnection with
exponential backoff and jitter, event listener dispatch).

Server definitions are shallow embeddings of
`src/services/websocketService.ts` (the revision whose clients map is
`Map<string, AuthenticatedWebSocket[]>`); client definitions embed the
enhanced `frontend/src/services/websocketService.ts` revision.
-/

namespace AiChat

namespace Server

/-- WebSocket.OPEN ready-state constant from the `ws` library. -/
def WS_OPEN : Nat := 1

/-- One authenticated server-side connection: the fields the service attaches
to an `AuthenticatedWebSocket` (`connectionId`, `userId`, `role`, `isAlive`)
plus the transport's `readyState`. -/
structure Conn where
  connectionId : Nat
  userId : String
  role : String
  isAlive : Bool
  readyState : Nat
  deriving DecidableEq, Repr

/-- The `clients` map of the service, `Map<string, AuthenticatedWebSocket[]>`,
modelled as an association list from user id to that user's connections in
insertion order. -/
abbrev Registry := List (String × List Conn)

/-- Lookup of a key in the clients map (`Map.get`). -/
def lookupKey : Registry → String → Option (List Conn)
  | [], _ => none
  | p :: rest, u => if p.1 = u then some p.2 else lookupKey rest u

/-- Whether a key is present in the clients map (`Map.has`). -/
def hasKey (st : Registry) (u : String) : Bool :=
  (lookupKey st u).isSome

/-- Write a key's value (`Map.set`): update in place when present, append
otherwise. -/
def setKey (st : Registry) (u : String) (l : List Conn) : Registry :=
  if hasKey st u then st.map (fun p => if p.1 = u then (u, l) else p)
  else st ++ [(u, l)]

/-- Delete a key (`Map.delete`). -/
def eraseKey (st : Registry) (u : String) : Registry :=
  st.filter (fun p => decide (p.1 ≠ u))

/-- The connections currently registered for a user (empty when the user is
not a key of the map). -/
def connsOf (st : Registry) (u : String) : List Conn :=
  (lookupKey st u).getD []

/-- Every registered connection, in registry order; this is the view the
`wss.clients` iteration sees for registered sockets. -/
def allConnections : Registry → List Conn
  | [] => []
  | p :: rest => p.2 ++ allConnections rest

/-- Connection ids of every registered connection. -/
def allConnectionIds (st : Registry) : List Nat :=
  (allConnections st).map Conn.connectionId

/-- Registration step of `handleConnection` (source lines 588-592): create the
user's entry when absent, then push the new connection. -/
def registerConnection (st : Registry) (c : Conn) : Registry :=
  let st' := if hasKey st c.userId then st else setKey st c.userId []
  setKey st' c.userId (connsOf st' c.userId ++ [c])

/-- `handleClose` (source lines 661-681): splice out the connection with the
closing socket's `connectionId`; when the user's array becomes empty, delete
the user's key entirely. -/
def handleClose (st : Registry) (userId : String) (connectionId : Nat) : Registry :=
  match lookupKey st userId with
  | none => st
  | some conns =>
    let conns' :=
      match conns.findIdx? (fun c => c.connectionId == connectionId) with
      | some i => conns.eraseIdx i
      | none => conns
    if conns'.length = 0 then eraseKey st userId
    else setKey st userId conns'

/-- Registry operations triggered by transport events: a successful handshake
registers a connection; a socket close unregisters it. -/
inductive RegOp where
  | register (c : Conn)
  | close (userId : String) (connectionId : Nat)
  deriving DecidableEq, Repr

/-- Apply one transport event to the clients map. -/
def applyOp (st : Registry) : RegOp → Registry
  | .register c => registerConnection st c
  | .close u cid => handleClose st u cid

/-- The clients map reached from the empty map by a sequence of register and
close events. -/
def runOps (ops : List RegOp) : Registry :=
  ops.foldl applyOp []

/-- Well-formedness of the clients map: no key maps to an empty array. -/
def validRegistry (st : Registry) : Prop :=
  ∀ p ∈ st, p.2 ≠ ([] : List Conn)

theorem lookupKey_mem {st : Registry} {u : String} {l : List Conn}
    (h : lookupKey st u = some l) : (u, l) ∈ st := by
  induction st with
  | nil => simp [lookupKey] at h
  | cons p rest ih =>
    by_cases hp : p.1 = u
    · simp only [lookupKey, hp, if_pos, Option.some.injEq] at h
      subst h
      cases p with
      | mk a b => simp_all
    · simp only [lookupKey, hp, if_neg, not_false_iff] at h
      exact List.mem_cons_of_mem _ (ih h)

theorem lookupKey_eq_none {st : Registry} {u : String}
    (h : lookupKey st u = none) : ∀ p ∈ st, p.1 ≠ u := by
  induction st with
  | nil => intro p hp; simp at hp
  | cons q rest ih =>
    by_cases hq : q.1 = u
    · simp [lookupKey, hq] at h
    · simp only [lookupKey, hq, if_neg, not_false_iff] at h
      intro p hp
      rcases List.mem_cons.mp hp with rfl | hp'
      · exact hq
      · exact ih h p hp'

theorem lookupKey_eraseKey_self (st : Registry) (u : String) :
    lookupKey (eraseKey st u) u = none := by
  induction st with
  | nil => simp [eraseKey, lookupKey]
  | cons p rest ih =>
    by_cases hp : p.1 = u
    · simpa [eraseKey, List.filter_cons, hp] using ih
    · simpa [eraseKey, List.filter_cons, hp, lookupKey] using ih

theorem lookupKey_setKey_self (st : Registry) (u : String) (l : List Conn) :
    lookupKey (setKey st u l) u = some l := by
  unfold setKey
  by_cases h : hasKey st u = true
  · simp only [h, if_pos]
    induction st with
    | nil => simp [hasKey, lookupKey] at h
    | cons p rest ih =>
      by_cases hp : p.1 = u
      · simp [lookupKey, hp]
      · simp only [List.map_cons, if_neg hp]
        have h' : hasKey rest u = true := by
          simpa [hasKey, lookupKey, hp] using h
        simpa [lookupKey, hp] using ih h'
  · simp only [h, if_neg, Bool.false_eq_true, not_false_iff]
    induction st with
    | nil => simp [lookupKey]
    | cons p rest ih =>
      by_cases hp : p.1 = u
      · exfalso
        simp [hasKey, lookupKey, hp] at h
      · have h' : ¬hasKey rest u = true := by
          simpa [hasKey, lookupKey, hp] using h
        simpa [lookupKey, hp] using ih h'

theorem mem_setKey {st : Registry} {u : String} {l : List Conn} {p : String × List Conn}
    (h : p ∈ setKey st u l) : p = (u, l) ∨ (p ∈ st ∧ p.1 ≠ u) := by
  unfold setKey at h
  by_cases hk : hasKey st u = true
  · simp only [hk, if_pos] at h
    rcases List.mem_map.mp h with ⟨q, hq, hpq⟩
    by_cases hq1 : q.1 = u
    · left
      simp only [hq1, if_pos] at hpq
      exact hpq.symm
    · right
      simp only [hq1, if_neg, not_false_iff] at hpq
      subst hpq
      exact ⟨hq, hq1⟩
  · simp only [hk, Bool.false_eq_true, if_neg, not_false_iff] at h
    rcases List.mem_append.mp h with h1 | h2
    · right
      refine ⟨h1, ?_⟩
      have hnone : lookupKey st u = none := by
        cases hcase : lookupKey st u with
        | none => rfl
        | some v => exact absurd (by simp [hasKey, hcase]) hk
      exact lookupKey_eq_none hnone p h1
    · left
      simpa using h2

theorem validRegistry_setKey {st : Registry} {u : String} {l : List Conn}
    (hst : ∀ p ∈ st, p.1 ≠ u → p.2 ≠ ([] : List Conn)) (hl : l ≠ []) :
    validRegistry (setKey st u l) := by
  intro p hp
  rcases mem_setKey hp with rfl | ⟨hmem, hne⟩
  · exact hl
  · exact hst p hmem hne

theorem validRegistry_eraseKey {st : Registry} (u : String)
    (hst : validRegistry st) : validRegistry (eraseKey st u) := by
  intro p hp
  exact hst p (List.mem_of_mem_filter hp)

theorem validRegistry_applyOp {st : Registry} (hst : validRegistry st)
    (op : RegOp) : validRegistry (applyOp st op) := by
  cases op with
  | register c =>
    show validRegistry (registerConnection st c)
    unfold registerConnection
    apply validRegistry_setKey _ (by simp)
    by_cases h : hasKey st c.userId = true
    · simp only [h, if_pos]
      intro p hp _
      exact hst p hp
    · simp only [h, Bool.false_eq_true, if_neg, not_false_iff]
      intro p hp hne
      rcases mem_setKey hp with rfl | ⟨hmem, _⟩
      · exact absurd rfl hne
      · exact hst p hmem
  | close u cid =>
    show validRegistry (handleClose st u cid)
    unfold handleClose
    cases hl : lookupKey st u with
    | none => exact hst
    | some conns =>
      simp only
      set conns' :=
        match conns.findIdx? (fun c => c.connectionId == cid) with
        | some i => conns.eraseIdx i
        | none => conns with hc'
      by_cases hlen : conns'.length = 0
      · simp only [hlen, if_pos]
        exact validRegistry_eraseKey u hst
      · simp only [hlen, if_neg, not_false_iff]
        apply validRegistry_setKey
        · intro p hp _
          exact hst p hp
        · intro hnil
          exact hlen (by simp [hnil])

theorem validRegistry_runOps (ops : List RegOp) : validRegistry (runOps ops) := by
  suffices h : ∀ st, validRegistry st → validRegistry (ops.foldl applyOp st) by
    exact h [] (by intro p hp; simp at hp)
  induction ops with
  | nil => intro st hst; exact hst
  | cons op rest ih =>
    intro st hst
    exact ih (applyOp st op) (validRegistry_applyOp hst op)

/-- The heartbeat interval passed to `setInterval` in `initialize`
(source line 450): 30000 milliseconds. -/
def heartbeatIntervalMs : Nat := 30000

/-- Effect of one heartbeat sweep on a single connection (`checkConnections`,
source lines 686-704, together with the close handler that `terminate()`
triggers): a connection whose liveness flag is still false is terminated (and
its close event unregisters it), otherwise its flag is reset to false and a
ping probe is sent. -/
def sweepConn (c : Conn) : Option Conn :=
  if c.isAlive then some { c with isAlive := false } else none

/-- One `checkConnections` sweep over the whole registry: dead connections are
terminated and (via their close events) removed; users left with no
connections lose their key. -/
def checkConnections (st : Registry) : Registry :=
  (st.map (fun p => (p.1, p.2.filterMap sweepConn))).filter
    (fun p => decide (p.2 ≠ ([] : List Conn)))

/-- The wire envelopes this core produces (`connected`, `pong`, `new_message`,
`system`); each server-originated envelope carries a timestamp. -/
inductive Envelope where
  | connected (message : String) (timestamp : Nat)
  | ping
  | pong (timestamp : Nat)
  | newMessage (message : String) (timestamp : Nat)
  | system (message : String) (timestamp : Nat)
  deriving DecidableEq, Repr

/-- Return value of `sendToClient` when called with a user id (source lines
736-768): look the user up, return false for an unknown user or an empty
array, otherwise fold over the user's connections setting the success flag
whenever a connection is open. -/
def sendToClient (st : Registry) (userId : String) : Bool :=
  match lookupKey st userId with
  | none => false
  | some conns =>
    if conns.length = 0 then false
    else conns.foldl (fun success c => if c.readyState = WS_OPEN then true else success) false

/-- The deliveries `sendToClient` performs: the envelope is sent on every open
connection of the user, identified here by connection id. -/
def sendToClientDeliveries (st : Registry) (userId : String) (e : Envelope) :
    List (Nat × Envelope) :=
  match lookupKey st userId with
  | none => []
  | some conns =>
    (conns.filter (fun c => c.readyState == WS_OPEN)).map (fun c => (c.connectionId, e))

/-- `notifyNewMessage` (source lines 800-806): wrap the payload in a
`new_message` envelope stamped with the current time and fan it out through
`sendToClient`. -/
def notifyNewMessage (st : Registry) (userId : String) (message : String) (now : Nat) :
    List (Nat × Envelope) :=
  sendToClientDeliveries st userId (Envelope.newMessage message now)

/-- JavaScript truthiness of the optional `excludeUserId` parameter: an absent
argument and the empty string are both falsy. -/
def truthyStr : Option String → Bool
  | none => false
  | some s => s ≠ ""

/-- `broadcast` (source lines 775-793): iterate every connection, skip a
connection when `excludeUserId` is truthy and owns it, and send to it when it
is open. -/
def broadcastDeliveries (st : Registry) (e : Envelope) (excludeUserId : Option String) :
    List (Nat × Envelope) :=
  ((allConnections st).filter (fun c =>
      !(truthyStr excludeUserId && (excludeUserId == some c.userId))
        && c.readyState == WS_OPEN)).map
    (fun c => (c.connectionId, e))

/-- Identity extracted from a verified JWT: the `id` and `role` payload
fields. -/
structure Identity where
  userId : String
  role : String
  deriving DecidableEq, Repr

/-- The handshake request data the service inspects: the declared origin and
the `token` query parameter. -/
structure HandshakeReq where
  origin : String
  token : Option String
  deriving DecidableEq, Repr

/-- Outcome of one connection attempt: an HTTP rejection of the upgrade
(`verifyClient` callback with `false`), a WebSocket close after the upgrade,
or an accepted, registered connection. -/
inductive HandshakeOutcome where
  | httpReject (status : Nat) (message : String)
  | wsClose (code : Nat) (reason : String)
  | accepted
  deriving DecidableEq, Repr

/-- Whether an outcome is a WebSocket close with code 1008. -/
def isWsClose1008 : HandshakeOutcome → Bool
  | .wsClose code _ => code == 1008
  | _ => false

/-- `verifyClient` (source lines 502-538): in production with a configured
allow-list, an unlisted origin is rejected with HTTP 403 "Forbidden"; then a
missing token is rejected with HTTP 401 "Unauthorized"; then a token that
fails `jwt.verify` is rejected with HTTP 401 "Unauthorized". `none` means the
upgrade is allowed to proceed. Token verification is abstracted as the
`verifyToken` collaborator. -/
def verifyClient (production : Bool) (allowedOrigins : List String)
    (verifyToken : String → Option Identity) (req : HandshakeReq) :
    Option (Nat × String) :=
  if production && !allowedOrigins.isEmpty && !allowedOrigins.contains req.origin then
    some (403, "Forbidden")
  else
    match req.token with
    | none => some (401, "Unauthorized")
    | some t =>
      match verifyToken t with
      | some _ => none
      | none => some (401, "Unauthorized")

/-- `handleConnection` (source lines 562-627): a missing token closes the
socket with 1008 "Authentication required"; a token rejected by `jwt.verify`
closes it with 1008 "Authentication failed"; otherwise the connection is
tagged with the decoded identity, given a fresh connection id, and stored in
the clients map. -/
def handleConnection (verifyToken : String → Option Identity) (req : HandshakeReq)
    (st : Registry) (freshId : Nat) : HandshakeOutcome × Registry :=
  match req.token with
  | none => (.wsClose 1008 "Authentication required", st)
  | some t =>
    match verifyToken t with
    | none => (.wsClose 1008 "Authentication failed", st)
    | some ident =>
      (.accepted,
       registerConnection st
         { connectionId := freshId, userId := ident.userId, role := ident.role,
           isAlive := true, readyState := WS_OPEN })

/-- A full connection attempt: in production the `verifyClient` option guards
the HTTP upgrade (`initialize`, source lines 441-445) before
`handleConnection` runs; outside production `verifyClient` is not installed
and `handleConnection` alone authenticates. -/
def handshake (production : Bool) (allowedOrigins : List String)
    (verifyToken : String → Option Identity) (req : HandshakeReq)
    (st : Registry) (freshId : Nat) : HandshakeOutcome × Registry :=
  if production then
    match verifyClient production allowedOrigins verifyToken req with
    | some (status, message) => (.httpReject status message, st)
    | none => handleConnection verifyToken req st freshId
  else handleConnection verifyToken req st freshId

end Server

namespace Client

/-- `initialReconnectDelay` field of the client service: 1000 ms. -/
def initialReconnectDelay : ℚ := 1000

/-- `maxReconnectDelay` field of the client service: 30000 ms. -/
def maxReconnectDelay : ℚ := 30000

/-- `maxReconnectAttempts` field of the client service: 10. -/
def maxReconnectAttemptsDefault : Nat := 10

/-- The retry delay `attemptReconnect` computes (source lines 792-799):
`delay = min(initialReconnectDelay * 1.5^attempt, maxReconnectDelay)`, then
`jitterAmount = delay * 0.1 * (random()*2 - 1)` and
`finalDelay = delay + jitterAmount`. The random draw is modelled by the
parameter `r = random()*2 - 1`, which ranges over `[-1, 1]`. -/
def reconnectDelay (attempt : Nat) (r : ℚ) : ℚ :=
  let delay := min (initialReconnectDelay * (3 / 2 : ℚ) ^ attempt) maxReconnectDelay
  let jitterAmount := delay * (1 / 10) * r
  delay + jitterAmount

/-- Modelled from the spec's formula for the same quantity:
`delay = min(base(1000ms) * factor(1.5)^attempt + jitter(±10%),
maxDelay(30000ms))`, with the jitter applied to the unclamped exponential term
and the clamp applied last. Used only to compare the spec's words with the
code's `reconnectDelay`. -/
def specReconnectDelay (attempt : Nat) (r : ℚ) : ℚ :=
  min (initialReconnectDelay * (3 / 2 : ℚ) ^ attempt
        + initialReconnectDelay * (3 / 2 : ℚ) ^ attempt * (1 / 10) * r)
    maxReconnectDelay

/-- Events the client service emits to its listeners while reconnecting: the
connection-state callbacks, the `reconnecting` event (with its `attempt`,
`maxAttempts` and `delay` payload fields) and the `reconnect_failed` event. -/
inductive ClientEvent where
  | connectionChange (isConnected : Bool)
  | reconnecting (attempt : Nat) (maxAttempts : Nat) (delay : ℚ)
  | reconnectFailed
  deriving DecidableEq, Repr

/-- Whether an event is a `reconnecting` event. -/
def isReconnecting : ClientEvent → Bool
  | .reconnecting _ _ _ => true
  | _ => false

/-- Whether an event is a `reconnect_failed` event. -/
def isReconnectFailed : ClientEvent → Bool
  | .reconnectFailed => true
  | _ => false

/-- Mutable state of the client `WebSocketService`: connection flag, attempt
counter and budget, the pending retry timer (holding its delay), the
heartbeat timer flag, whether a socket object currently exists, the cached
URL, and a count of WebSocket constructor calls (connection attempts) made so
far. -/
structure ClientState where
  isConnected : Bool
  reconnectAttempts : Nat
  maxReconnectAttempts : Nat
  reconnectTimeout : Option ℚ
  heartbeatInterval : Bool
  hasSocket : Bool
  url : String
  connectionsOpened : Nat
  deriving DecidableEq, Repr

/-- `cancelReconnect` (source lines 826-831): clear the pending retry timer. -/
def cancelReconnect (s : ClientState) : ClientState :=
  { s with reconnectTimeout := none }

/-- `stopHeartbeat` (source lines 771-776). -/
def stopHeartbeat (s : ClientState) : ClientState :=
  { s with heartbeatInterval := false }

/-- `attemptReconnect` (source lines 781-821): when the attempt budget is
exhausted, emit `reconnect_failed` and schedule nothing; otherwise cancel any
pending timer, compute the jittered delay, emit one `reconnecting` event
whose `attempt` field is the current counter plus one, and start the retry
timer. -/
def attemptReconnect (s : ClientState) (r : ℚ) : ClientState × List ClientEvent :=
  if s.maxReconnectAttempts ≤ s.reconnectAttempts then
    (s, [.reconnectFailed])
  else
    let s' := cancelReconnect s
    let finalDelay := reconnectDelay s.reconnectAttempts r
    ({ s' with reconnectTimeout := some finalDelay },
     [.reconnecting (s.reconnectAttempts + 1) s.maxReconnectAttempts finalDelay])

/-- `handleOpen` (source lines 698-704): mark connected, reset the attempt
counter to zero, notify connection listeners, start the heartbeat. -/
def handleOpen (s : ClientState) : ClientState × List ClientEvent :=
  ({ s with isConnected := true, reconnectAttempts := 0, heartbeatInterval := true },
   [.connectionChange true])

/-- `handleClose` (source lines 709-719): mark disconnected, notify the
connection listeners, stop the heartbeat, and call `attemptReconnect` exactly
when the close code is neither 1000 nor 1001. The closed socket no longer
exists as a live connection. -/
def handleClose (s : ClientState) (code : Nat) (r : ℚ) : ClientState × List ClientEvent :=
  let s' := stopHeartbeat { s with isConnected := false, hasSocket := false }
  if code ≠ 1000 ∧ code ≠ 1001 then
    let (s'', evs) := attemptReconnect s' r
    (s'', .connectionChange false :: evs)
  else (s', [.connectionChange false])

/-- Expiry of the pending retry timer (the `setTimeout` callback in
`attemptReconnect`, source lines 809-820): increment the attempt counter and,
when a URL is cached, construct a new WebSocket — a fresh connection
attempt. -/
def expireReconnectTimer (s : ClientState) : ClientState :=
  match s.reconnectTimeout with
  | none => s
  | some _ =>
    let s' := { s with reconnectTimeout := none,
                       reconnectAttempts := s.reconnectAttempts + 1 }
    if s.url ≠ "" then
      { s' with hasSocket := true, connectionsOpened := s'.connectionsOpened + 1 }
    else s'

/-- One round of the adversarial schedule used to analyse reconnect
exhaustion: while a socket exists, it closes abnormally (code 1006) and the
retry timer, if one was scheduled, then expires, producing the next
connection attempt. The jitter draw is fixed at 0; it influences only the
length, never the logic, of the waits. Without a socket nothing happens. -/
def step (s : ClientState) : ClientState × List ClientEvent :=
  if s.hasSocket then
    let (s', evs) := handleClose s 1006 0
    (expireReconnectTimer s', evs)
  else (s, [])

/-- Run `n` rounds of the failing schedule, collecting emitted events. -/
def run : Nat → ClientState → ClientState × List ClientEvent
  | 0, s => (s, [])
  | n + 1, s =>
    let (s', evs) := step s
    let (s'', evs') := run n s'
    (s'', evs ++ evs')

/-- Client state right after `connectWebSocket` succeeded and `handleOpen`
ran: connected, attempt counter zero, default budget, no pending timer,
heartbeat running, one live socket. -/
def connectedState : ClientState :=
  { isConnected := true, reconnectAttempts := 0,
    maxReconnectAttempts := maxReconnectAttemptsDefault, reconnectTimeout := none,
    heartbeatInterval := true, hasSocket := true,
    url := "wss://host/ws?token=jwt", connectionsOpened := 1 }

/-- A registered message listener, modelled by an identifier and whether its
callback throws when invoked. -/
structure Listener where
  id : Nat
  throws : Bool
  deriving DecidableEq, Repr

/-- Run the listener callbacks of one event dispatch in order. Each invocation
is recorded as (listener id, data). With `catchErrors = true` (the per-callback
try/catch of the source) a throwing callback is swallowed and iteration
continues; with `catchErrors = false` the exception escapes (second component
`true`) and the remaining callbacks never run. -/
def runCallbacks (catchErrors : Bool) : List Listener → Nat → List (Nat × Nat) × Bool
  | [], _ => ([], false)
  | l :: rest, data =>
    if l.throws && !catchErrors then ([(l.id, data)], true)
    else
      let (invs, escaped) := runCallbacks catchErrors rest data
      ((l.id, data) :: invs, escaped)

/-- Listener registrations keyed by event name, as in the `messageListeners`
map of the client service and the `clientEventHandlers` map of the combined
service. -/
abbrev ListenerMap := List (String × List Listener)

/-- Lookup of an event's listener array. -/
def lookupListeners : ListenerMap → String → Option (List Listener)
  | [], _ => none
  | p :: rest, ty => if p.1 = ty then some p.2 else lookupListeners rest ty

/-- The listener array for an event, empty when none is registered. -/
def listenersFor (m : ListenerMap) (ty : String) : List Listener :=
  (lookupListeners m ty).getD []

/-- `notifyMessageListeners` (client source lines 888-899) and the identical
`triggerEvent`: look up the event's listeners, return early when there are
none, and invoke each callback inside its own try/catch. The result records
the invocations made and whether an exception escaped to the caller. -/
def notifyMessageListeners (m : ListenerMap) (ty : String) (data : Nat) :
    List (Nat × Nat) × Bool :=
  match lookupListeners m ty with
  | none => ([], false)
  | some ls =>
    if ls.length = 0 then ([], false)
    else runCallbacks true ls data

end Client

section RegistryClaims

open Server

theorem lookupKey_isSome_iff_connsOf_ne_nil {st : Registry} (hst : validRegistry st)
    (u : String) : (lookupKey st u).isSome = true ↔ connsOf st u ≠ [] := by
  cases hcase : lookupKey st u with
  | none => simp [connsOf, hcase]
  | some l =>
    simp only [Option.isSome_some, connsOf, hcase, Option.getD_some, true_iff]
    exact hst (u, l) (lookupKey_mem hcase)

/-- C1: at every clients-map state reachable by register (handshake) and
unregister (close) events, a user id is a key of the map iff it has at least
one live connection, no key maps to an empty connection array, and closing
the last connection of a user deletes the user's key entirely. -/
theorem C1_registry_invariant :
    (∀ ops u, (lookupKey (runOps ops) u).isSome = true ↔ connsOf (runOps ops) u ≠ []) ∧
    (∀ ops u l, lookupKey (runOps ops) u = some l → l ≠ []) ∧
    (∀ st u c, lookupKey st u = some [c] →
        lookupKey (Server.handleClose st u c.connectionId) u = none) := by
  refine ⟨?_, ?_, ?_⟩
  · intro ops u
    exact lookupKey_isSome_iff_connsOf_ne_nil (validRegistry_runOps ops) u
  · intro ops u l h
    exact validRegistry_runOps ops (u, l) (lookupKey_mem h)
  · intro st u c h
    unfold Server.handleClose
    rw [h]
    simp [List.findIdx?, lookupKey_eraseKey_self]

/-- Witness for C1 at a concrete one-connection registry: closing that
connection removes the user's key. -/
theorem C1_registry_invariant_witness :
    lookupKey
        (Server.handleClose
          [("u1", [{ connectionId := 5, userId := "u1", role := "user",
                     isAlive := true, readyState := 1 }])]
          "u1" 5)
        "u1" = none :=
  C1_registry_invariant.2.2 _ "u1"
    { connectionId := 5, userId := "u1", role := "user",
      isAlive := true, readyState := 1 } (by decide)

end RegistryClaims

section HeartbeatClaims

open Server

theorem sweepConn_eq_some {c c' : Conn} :
    sweepConn c = some c' ↔ c.isAlive = true ∧ c' = { c with isAlive := false } := by
  unfold sweepConn
  by_cases h : c.isAlive
  · simp [h, eq_comm]
  · simp [h]

theorem checkConnections_cons (p : String × List Conn) (rest : Registry) :
    checkConnections (p :: rest)
      = if p.2.filterMap sweepConn ≠ [] then
          (p.1, p.2.filterMap sweepConn) :: checkConnections rest
        else checkConnections rest := by
  by_cases h : p.2.filterMap sweepConn = []
  · simp [checkConnections, List.filter_cons, h]
  · simp [checkConnections, List.filter_cons, h]

theorem mem_allConnections_of_mem {st : Registry} {p : String × List Conn}
    (hp : p ∈ st) {c : Conn} (hc : c ∈ p.2) : c ∈ allConnections st := by
  induction st with
  | nil => simp at hp
  | cons q rest ih =>
    rcases List.mem_cons.mp hp with rfl | hp'
    · exact List.mem_append.mpr (Or.inl hc)
    · exact List.mem_append.mpr (Or.inr (ih hp'))

theorem mem_allConnections_checkConnections {st : Registry} {c' : Conn}
    (h : c' ∈ allConnections (checkConnections st)) :
    ∃ c, c ∈ allConnections st ∧ sweepConn c = some c' := by
  induction st with
  | nil => simp [checkConnections, allConnections] at h
  | cons p rest ih =>
    rw [checkConnections_cons] at h
    by_cases hne : p.2.filterMap sweepConn = []
    · rw [if_neg (by simpa using hne)] at h
      rcases ih h with ⟨c, hc, hsw⟩
      exact ⟨c, List.mem_append.mpr (Or.inr hc), hsw⟩
    · simp only [hne, ne_eq, not_false_iff, if_pos] at h
      rcases List.mem_append.mp h with h1 | h2
      · rcases List.mem_filterMap.mp h1 with ⟨c, hc, hsw⟩
        exact ⟨c, List.mem_append.mpr (Or.inl hc), hsw⟩
      · rcases ih h2 with ⟨c, hc, hsw⟩
        exact ⟨c, List.mem_append.mpr (Or.inr hc), hsw⟩

theorem filterMap_sweepConn_of_dead {l : List Conn}
    (h : ∀ c ∈ l, c.isAlive = false) : l.filterMap sweepConn = [] := by
  induction l with
  | nil => rfl
  | cons c rest ih =>
    have hc : c.isAlive = false := h c (List.mem_cons_self c rest)
    have hrest : ∀ c' ∈ rest, c'.isAlive = false :=
      fun c' hc' => h c' (List.mem_cons_of_mem c hc')
    simp [List.filterMap_cons, sweepConn, hc, ih hrest]

theorem checkConnections_eq_nil {st : Registry}
    (h : ∀ p ∈ st, p.2.filterMap sweepConn = []) : checkConnections st = [] := by
  induction st with
  | nil => rfl
  | cons p rest ih =>
    rw [checkConnections_cons]
    have hp := h p (List.mem_cons_self p rest)
    simp [hp, ih (fun q hq => h q (List.mem_cons_of_mem p hq))]

theorem isAlive_false_of_mem_checkConnections {st : Registry} {c' : Conn}
    (h : c' ∈ allConnections (checkConnections st)) : c'.isAlive = false := by
  rcases mem_allConnections_checkConnections h with ⟨c, _, hsw⟩
  rcases sweepConn_eq_some.mp hsw with ⟨_, rfl⟩
  rfl

/-- C3: every connection the sweep keeps answered the previous cycle's probe
(had its liveness flag true) and is re-flagged false; consequently a
connection that never answers ping survives at most one further sweep — two
consecutive sweeps with no pong in between empty the whole registry — so with
the 30000 ms sweep interval an unresponsive connection is terminated and
unregistered within 2 x 30000 ms = 60000 ms of its last pong. -/
theorem C3_heartbeat_eviction :
    (∀ st c', c' ∈ allConnections (checkConnections st) →
        ∃ c, c ∈ allConnections st ∧ c.isAlive = true ∧ c' = { c with isAlive := false }) ∧
    (∀ st, checkConnections (checkConnections st) = []) ∧
    heartbeatIntervalMs = 30000 ∧ 2 * heartbeatIntervalMs = 60000 := by
  refine ⟨?_, ?_, rfl, rfl⟩
  · intro st c' h
    rcases mem_allConnections_checkConnections h with ⟨c, hc, hsw⟩
    rcases sweepConn_eq_some.mp hsw with ⟨halive, rfl⟩
    exact ⟨c, hc, halive, rfl⟩
  · intro st
    apply checkConnections_eq_nil
    intro p hp
    apply filterMap_sweepConn_of_dead
    intro c hc
    exact isAlive_false_of_mem_checkConnections (mem_allConnections_of_mem hp hc)

/-- Witness for C3 at a concrete registry holding one live connection: the
single connection surviving the sweep is that connection with its liveness
flag cleared. -/
theorem C3_heartbeat_eviction_witness :
    ∃ c, c ∈ allConnections
          [("u1", [{ connectionId := 1, userId := "u1", role := "user",
                     isAlive := true, readyState := 1 }])] ∧
      c.isAlive = true ∧
      ({ connectionId := 1, userId := "u1", role := "user",
         isAlive := false, readyState := 1 } : Conn) = { c with isAlive := false } :=
  C3_heartbeat_eviction.1
    [("u1", [{ connectionId := 1, userId := "u1", role := "user",
               isAlive := true, readyState := 1 }])]
    { connectionId := 1, userId := "u1", role := "user",
      isAlive := false, readyState := 1 } (by decide)

end HeartbeatClaims

section DispatchClaims

open Server

theorem foldl_sendFlag (conns : List Conn) (b : Bool) :
    conns.foldl (fun success c => if c.readyState = WS_OPEN then true else success) b
      = (b || conns.any (fun c => c.readyState == WS_OPEN)) := by
  induction conns generalizing b with
  | nil => simp
  | cons c rest ih =>
    rw [List.foldl_cons, ih, List.any_cons]
    by_cases h : c.readyState = WS_OPEN
    · simp [h]
    · have hb : (c.readyState == WS_OPEN) = false := by
        simpa using h
      rw [hb]
      simp [h]

/-- C4: `sendToClient` called with a user id returns true iff at least one
connection registered for that user is open at send time; in particular it
returns false for an unknown user, for a user with no open connections, and
when every send is skipped. -/
theorem C4_sendToUser_delivered_iff (st : Registry) (u : String) :
    sendToClient st u = true ↔ ∃ c, c ∈ connsOf st u ∧ c.readyState = WS_OPEN := by
  unfold sendToClient
  cases hcase : lookupKey st u with
  | none => simp [connsOf, hcase]
  | some conns =>
    simp only [connsOf, hcase, Option.getD_some]
    by_cases hlen : conns.length = 0
    · rcases List.length_eq_zero.mp hlen with rfl
      simp
    · rw [if_neg hlen, foldl_sendFlag]
      simp [List.any_eq_true]

/-- C5: `notifyNewMessage` wraps the payload in a `new_message` envelope with
a generation timestamp and delivers it to every open connection registered for
the user — every open connection, not just one of them. -/
theorem C5_multi_connection_fanout (st : Registry) (u : String) (msg : String) (now : Nat)
    (c : Conn) (hc : c ∈ connsOf st u) (hopen : c.readyState = WS_OPEN) :
    (c.connectionId, Envelope.newMessage msg now) ∈ notifyNewMessage st u msg now := by
  unfold notifyNewMessage sendToClientDeliveries
  cases hcase : lookupKey st u with
  | none => simp [connsOf, hcase] at hc
  | some conns =>
    simp only [connsOf, hcase, Option.getD_some] at hc
    simp only
    apply List.mem_map_of_mem
    exact List.mem_filter.mpr ⟨hc, by simp [hopen]⟩

/-- Witness for C5: a user with two simultaneously open connections receives
the `new_message` envelope on both of them. -/
theorem C5_multi_connection_fanout_witness :
    ((1 : Nat), Envelope.newMessage "hi" 7) ∈
        notifyNewMessage
          [("u1", [{ connectionId := 1, userId := "u1", role := "user",
                     isAlive := true, readyState := 1 },
                   { connectionId := 2, userId := "u1", role := "user",
                     isAlive := true, readyState := 1 }])] "u1" "hi" 7 ∧
    ((2 : Nat), Envelope.newMessage "hi" 7) ∈
        notifyNewMessage
          [("u1", [{ connectionId := 1, userId := "u1", role := "user",
                     isAlive := true, readyState := 1 },
                   { connectionId := 2, userId := "u1", role := "user",
                     isAlive := true, readyState := 1 }])] "u1" "hi" 7 :=
  ⟨C5_multi_connection_fanout _ "u1" "hi" 7
      { connectionId := 1, userId := "u1", role := "user",
        isAlive := true, readyState := 1 } (by decide) rfl,
   C5_multi_connection_fanout _ "u1" "hi" 7
      { connectionId := 2, userId := "u1", role := "user",
        isAlive := true, readyState := 1 } (by decide) rfl⟩

end DispatchClaims

section BroadcastClaims

open Server

theorem count_deliveries_zero {l : List Conn} {cid : Nat}
    (h : cid ∉ l.map Conn.connectionId) (p : Conn → Bool) (e : Envelope) :
    ((l.filter p).map (fun c' => (c'.connectionId, e))).count (cid, e) = 0 := by
  rw [List.count_eq_zero]
  intro hmem
  rcases List.mem_map.mp hmem with ⟨c', hc', heq⟩
  have hcid : c'.connectionId = cid := (Prod.mk.injEq _ _ _ _).mp heq |>.1
  exact h (hcid ▸ List.mem_map_of_mem Conn.connectionId (List.mem_of_mem_filter hc'))

theorem count_deliveries {l : List Conn} (hnd : (l.map Conn.connectionId).Nodup)
    {c : Conn} (hc : c ∈ l) (p : Conn → Bool) (e : Envelope) :
    ((l.filter p).map (fun c' => (c'.connectionId, e))).count (c.connectionId, e)
      = if p c then 1 else 0 := by
  induction l with
  | nil => simp at hc
  | cons a rest ih =>
    have hnin : a.connectionId ∉ rest.map Conn.connectionId :=
      (List.nodup_cons.mp hnd).1
    have hnd' : (rest.map Conn.connectionId).Nodup := (List.nodup_cons.mp hnd).2
    rcases List.mem_cons.mp hc with rfl | hcr
    · by_cases hpa : p c
      · rw [List.filter_cons, if_pos hpa, List.map_cons, List.count_cons_self,
            count_deliveries_zero hnin, hpa, if_pos rfl]
      · rw [List.filter_cons, if_neg hpa, count_deliveries_zero hnin, if_neg hpa]
    · have hne : c.connectionId ≠ a.connectionId := by
        intro heq
        exact hnin (heq ▸ List.mem_map_of_mem Conn.connectionId hcr)
      by_cases hpa : p a
      · rw [List.filter_cons, if_pos hpa, List.map_cons, List.count_cons,
            ih hnd' hcr]
        simp [Prod.ext_iff, Ne.symm hne]
      · rw [List.filter_cons, if_neg hpa, ih hnd' hcr]

/-- Counterexample for C6 as stated: the source guards the exclusion with
JavaScript truthiness (`excludeUserId && ...`), so excluding the empty-string
user id excludes nobody — an open connection owned by the excluded user ""
still receives the broadcast envelope. -/
theorem C6_broadcast_exclusion_counterexample :
    ((0 : Nat), Envelope.system "notice" 5) ∈
      broadcastDeliveries
        [("", [{ connectionId := 0, userId := "", role := "user",
                 isAlive := true, readyState := 1 }])]
        (Envelope.system "notice" 5) (some "") := by
  decide

/-- C6 (amended): for every nonempty excluded user id U — the code treats an
empty-string `excludeUserId` as absent — a broadcast excluding U delivers the
envelope to no connection owned by U and exactly once to every other
registered open connection (connection ids being distinct). -/
theorem C6_broadcast_exclusion (st : Registry) (e : Envelope) (U : String)
    (hU : U ≠ "") (hnd : (allConnectionIds st).Nodup) :
    (∀ c ∈ allConnections st, c.userId = U →
        (c.connectionId, e) ∉ broadcastDeliveries st e (some U)) ∧
    (∀ c ∈ allConnections st, c.userId ≠ U → c.readyState = WS_OPEN →
        (broadcastDeliveries st e (some U)).count (c.connectionId, e) = 1) := by
  constructor
  · intro c hc hcu hmem
    unfold broadcastDeliveries at hmem
    rcases List.mem_map.mp hmem with ⟨c', hc', heq⟩
    have hcid : c'.connectionId = c.connectionId := (Prod.mk.injEq _ _ _ _).mp heq |>.1
    have hc'mem : c' ∈ allConnections st := List.mem_of_mem_filter hc'
    have hpred := (List.mem_filter.mp hc').2
    have hc'u : c'.userId ≠ U := by
      intro hu
      simp [truthyStr, hU, hu] at hpred
    have : c' = c :=
      List.inj_on_of_nodup_map hnd hc'mem hc hcid
    exact hc'u (this ▸ hcu)
  · intro c hc hcu hopen
    unfold broadcastDeliveries
    rw [count_deliveries hnd hc]
    have hpred : (!(truthyStr (some U) && ((some U : Option String) == some c.userId))
        && (c.readyState == WS_OPEN)) = true := by
      simp [truthyStr, hU, hopen, Ne.symm hcu]
    rw [if_pos hpred]

/-- Witness for C6 (amended) at a two-user registry: the excluded user's
connection receives nothing while the other user's open connection receives
the envelope exactly once. -/
theorem C6_broadcast_exclusion_witness :
    (((1 : Nat), Envelope.system "s" 3) ∉
        broadcastDeliveries
          [("u1", [{ connectionId := 1, userId := "u1", role := "user",
                     isAlive := true, readyState := 1 }]),
           ("u2", [{ connectionId := 2, userId := "u2", role := "user",
                     isAlive := true, readyState := 1 }])]
          (Envelope.system "s" 3) (some "u1")) ∧
    ((broadcastDeliveries
          [("u1", [{ connectionId := 1, userId := "u1", role := "user",
                     isAlive := true, readyState := 1 }]),
           ("u2", [{ connectionId := 2, userId := "u2", role := "user",
                     isAlive := true, readyState := 1 }])]
          (Envelope.system "s" 3) (some "u1")).count ((2 : Nat), Envelope.system "s" 3) = 1) :=
  ⟨(C6_broadcast_exclusion _ (Envelope.system "s" 3) "u1" (by decide) (by decide)).1
      { connectionId := 1, userId := "u1", role := "user",
        isAlive := true, readyState := 1 } (by decide) rfl,
   (C6_broadcast_exclusion _ (Envelope.system "s" 3) "u1" (by decide) (by decide)).2
      { connectionId := 2, userId := "u2", role := "user",
        isAlive := true, readyState := 1 } (by decide) (by decide) rfl⟩

end BroadcastClaims

section HandshakeClaims

open Server

/-- A concrete token verifier standing in for `jwt.verify` in witnesses: it
accepts exactly the token "valid". -/
def verifyTokenStub : String → Option Identity :=
  fun t => if t = "valid" then some { userId := "u1", role := "user" } else none

/-- Counterexample for C7 as stated: in strict (production) mode with a
configured allow-list, a request from an unlisted origin is rejected at the
HTTP upgrade by `verifyClient` with status 403 "Forbidden" — the socket is
never opened, so no WebSocket close with code 1008 occurs. -/
theorem C7_handshake_counterexample :
    (handshake true ["https://app.example"] verifyTokenStub
        { origin := "https://evil.example", token := some "valid" } [] 0).1
      = HandshakeOutcome.httpReject 403 "Forbidden" ∧
    isWsClose1008
        (handshake true ["https://app.example"] verifyTokenStub
          { origin := "https://evil.example", token := some "valid" } [] 0).1
      = false ∧
    (handshake true ["https://app.example"] verifyTokenStub
        { origin := "https://evil.example", token := some "valid" } [] 0).2
      = [] := by
  decide

/-- C7 (amended): every failed connection attempt leaves the clients map
unchanged. When `verifyClient` is not installed (non-production), a missing
token closes the socket with 1008 "Authentication required" and an invalid
token with 1008 "Authentication failed". In strict (production) mode an
unlisted origin is rejected at the HTTP upgrade with 403 "Forbidden" (not
with close code 1008), and a missing token that passes the origin check is
rejected with HTTP 401 "Unauthorized". -/
theorem C7_handshake_failures (production : Bool) (allowedOrigins : List String)
    (verifyToken : String → Option Identity) (req : HandshakeReq)
    (st : Registry) (freshId : Nat) :
    ((handshake production allowedOrigins verifyToken req st freshId).1
        ≠ HandshakeOutcome.accepted →
      (handshake production allowedOrigins verifyToken req st freshId).2 = st) ∧
    (production = false → req.token = none →
      (handshake production allowedOrigins verifyToken req st freshId).1
        = HandshakeOutcome.wsClose 1008 "Authentication required") ∧
    (production = false → ∀ t, req.token = some t → verifyToken t = none →
      (handshake production allowedOrigins verifyToken req st freshId).1
        = HandshakeOutcome.wsClose 1008 "Authentication failed") ∧
    (production = true → allowedOrigins ≠ [] →
        allowedOrigins.contains req.origin = false →
      (handshake production allowedOrigins verifyToken req st freshId).1
        = HandshakeOutcome.httpReject 403 "Forbidden") ∧
    (production = true → allowedOrigins.contains req.origin = true → req.token = none →
      (handshake production allowedOrigins verifyToken req st freshId).1
        = HandshakeOutcome.httpReject 401 "Unauthorized") := by
  have handleConnection_st : ∀ (vt : String → Option Identity) (rq : HandshakeReq)
      (s : Registry) (fid : Nat),
      (handleConnection vt rq s fid).1 ≠ HandshakeOutcome.accepted →
        (handleConnection vt rq s fid).2 = s := by
    intro vt rq s fid hne
    unfold handleConnection at hne ⊢
    cases htok : rq.token with
    | none => rfl
    | some t =>
      simp only [htok] at hne ⊢
      cases hv : vt t with
      | none => rfl
      | some ident => simp [hv] at hne
  refine ⟨?_, ?_, ?_, ?_, ?_⟩
  · intro hne
    unfold handshake at hne ⊢
    by_cases hprod : production = true
    · rw [if_pos hprod] at hne ⊢
      cases hvc : verifyClient production allowedOrigins verifyToken req with
      | some rej =>
        rcases rej with ⟨status, msg⟩
        rfl
      | none =>
        rw [hvc] at hne
        exact handleConnection_st _ _ _ _ hne
    · rw [if_neg hprod] at hne ⊢
      exact handleConnection_st _ _ _ _ hne
  · intro hprod htok
    subst hprod
    simp [handshake, handleConnection, htok]
  · intro hprod t htok hv
    subst hprod
    simp [handshake, handleConnection, htok, hv]
  · intro hprod hne hcon
    subst hprod
    have hmem : req.origin ∉ allowedOrigins := by simpa using hcon
    have hie : (allowedOrigins.isEmpty : Bool) = false := by
      cases allowedOrigins with
      | nil => exact absurd rfl hne
      | cons a l => rfl
    simp [handshake, verifyClient, hie, hmem]
  · intro hprod hcon htok
    subst hprod
    have hmem : req.origin ∈ allowedOrigins := by simpa using hcon
    simp [handshake, verifyClient, hmem, htok]

/-- Witness for C7 (amended): with `verifyClient` not installed, a tokenless
handshake is closed with 1008 "Authentication required" and the clients map
stays empty. -/
theorem C7_handshake_failures_witness :
    (handshake false [] verifyTokenStub { origin := "https://app.example", token := none }
        [] 0).1 = HandshakeOutcome.wsClose 1008 "Authentication required" ∧
    (handshake false [] verifyTokenStub { origin := "https://app.example", token := none }
        [] 0).2 = [] :=
  ⟨(C7_handshake_failures false [] verifyTokenStub _ [] 0).2.1 rfl rfl,
   (C7_handshake_failures false [] verifyTokenStub _ [] 0).1 (by decide)⟩

end HandshakeClaims

section BackoffClaims

open Client

theorem reconnectDelay_eq (a : Nat) (r : ℚ) :
    reconnectDelay a r
      = min (initialReconnectDelay * (3 / 2 : ℚ) ^ a) maxReconnectDelay * (1 + r / 10) := by
  unfold reconnectDelay
  ring

/-- Counterexample for C2 as stated: the source clamps the delay at 30000 ms
BEFORE adding the jitter, while the claimed formula clamps after. At attempt 9
with the jitter draw at its maximum (+10%), the code's delay is
min(1000 x 1.5^9, 30000) + 10% = 33000 ms, which exceeds 30000 ms and differs
from the claimed min(1000 x 1.5^9 + jitter, 30000) = 30000 ms. -/
theorem C2_backoff_counterexample :
    reconnectDelay 9 1 = 33000 ∧
    specReconnectDelay 9 1 = 30000 ∧
    maxReconnectDelay < reconnectDelay 9 1 := by
  have h9 : (30000 : ℚ) ≤ 1000 * (3 / 2 : ℚ) ^ 9 := by norm_num
  have hmin : min (initialReconnectDelay * (3 / 2 : ℚ) ^ 9) maxReconnectDelay = 30000 := by
    rw [initialReconnectDelay, maxReconnectDelay, min_eq_right h9]
  refine ⟨?_, ?_, ?_⟩
  · rw [reconnectDelay_eq, hmin]
    norm_num
  · unfold specReconnectDelay initialReconnectDelay maxReconnectDelay
    rw [min_eq_right (by norm_num)]
  · rw [reconnectDelay_eq, hmin, maxReconnectDelay]
    norm_num

/-- C2 (amended): the scheduled retry delay is
`min(1000 x 1.5^attempt, 30000) x (1 + jitter)` with `|jitter| <= 10%` — the
clamp is applied before the jitter, not after. For attempts 0..8 the clamp is
inactive, so attempt 0 lies within 1000 ms +-10% and attempt 4 equals
5062.5 ms +-10%; in general the delay is bounded by 33000 ms (the clamp value
plus 10%), not by 30000 ms. -/
theorem C2_backoff_delay (a : Nat) (r : ℚ) (h1 : -1 ≤ r) (h2 : r ≤ 1) :
    reconnectDelay a r
      = min (initialReconnectDelay * (3 / 2 : ℚ) ^ a) maxReconnectDelay * (1 + r / 10) ∧
    reconnectDelay a r ≤ 33000 ∧
    (a ≤ 8 → reconnectDelay a r = initialReconnectDelay * (3 / 2 : ℚ) ^ a * (1 + r / 10)) ∧
    (900 ≤ reconnectDelay 0 r ∧ reconnectDelay 0 r ≤ 1100) ∧
    reconnectDelay 4 r = 10125 / 2 * (1 + r / 10) := by
  have hj1 : 1 + r / 10 ≤ 11 / 10 := by linarith
  have hj0 : (0 : ℚ) ≤ 1 + r / 10 := by linarith
  have hj9 : (9 : ℚ) / 10 ≤ 1 + r / 10 := by linarith
  refine ⟨reconnectDelay_eq a r, ?_, ?_, ?_, ?_⟩
  · rw [reconnectDelay_eq]
    have hm0 : (0 : ℚ) ≤ min (initialReconnectDelay * (3 / 2 : ℚ) ^ a) maxReconnectDelay :=
      le_min (by unfold initialReconnectDelay; positivity)
        (by unfold maxReconnectDelay; norm_num)
    have hm30 : min (initialReconnectDelay * (3 / 2 : ℚ) ^ a) maxReconnectDelay ≤ 30000 := by
      rw [maxReconnectDelay]
      exact min_le_right _ _
    calc min (initialReconnectDelay * (3 / 2 : ℚ) ^ a) maxReconnectDelay * (1 + r / 10)
        ≤ 30000 * (11 / 10) := mul_le_mul hm30 hj1 hj0 (by norm_num)
      _ = 33000 := by norm_num
  · intro ha
    rw [reconnectDelay_eq, min_eq_left]
    rw [initialReconnectDelay, maxReconnectDelay]
    have hpow : (3 / 2 : ℚ) ^ a ≤ (3 / 2 : ℚ) ^ 8 :=
      pow_le_pow_right₀ (by norm_num) ha
    calc (1000 : ℚ) * (3 / 2 : ℚ) ^ a ≤ 1000 * (3 / 2 : ℚ) ^ 8 := by linarith
      _ ≤ 30000 := by norm_num
  · have heq : reconnectDelay 0 r = 1000 * (1 + r / 10) := by
      rw [reconnectDelay_eq, initialReconnectDelay, maxReconnectDelay]
      rw [min_eq_left (by norm_num)]
      norm_num
    rw [heq]
    constructor <;> linarith
  · rw [reconnectDelay_eq, initialReconnectDelay, maxReconnectDelay]
    rw [min_eq_left (by norm_num)]
    norm_num

/-- Witness for C2 (amended) at attempt 4 with jitter draw 0: the delay equals
exactly 5062.5 ms. -/
theorem C2_backoff_delay_witness :
    reconnectDelay 4 0 = 10125 / 2 * (1 + 0 / 10) :=
  (C2_backoff_delay 4 0 (by norm_num) (by norm_num)).2.2.2.2

end BackoffClaims

section ReconnectClaims

open Client

/-- C8: a close with code 1000 or 1001 schedules no retry and emits no
`reconnecting` event; a close with any other code, while the attempt budget
is not exhausted, emits exactly one `reconnecting` event whose `attempt`
field is the current counter plus one and schedules exactly one retry timer
holding the computed backoff delay. -/
theorem C8_retry_scheduled_iff_abnormal (s : ClientState) (code : Nat) (r : ℚ) :
    ((code = 1000 ∨ code = 1001) →
      ((Client.handleClose s code r).2.countP isReconnecting = 0 ∧
       (Client.handleClose s code r).1.reconnectTimeout = s.reconnectTimeout)) ∧
    (code ≠ 1000 → code ≠ 1001 → s.reconnectAttempts < s.maxReconnectAttempts →
      ((Client.handleClose s code r).2.countP isReconnecting = 1 ∧
       ClientEvent.reconnecting (s.reconnectAttempts + 1) s.maxReconnectAttempts
           (reconnectDelay s.reconnectAttempts r) ∈ (Client.handleClose s code r).2 ∧
       (Client.handleClose s code r).1.reconnectTimeout
         = some (reconnectDelay s.reconnectAttempts r))) := by
  constructor
  · intro h
    have hcond : ¬(code ≠ 1000 ∧ code ≠ 1001) := by
      rcases h with rfl | rfl <;> simp
    simp [Client.handleClose, hcond, Client.stopHeartbeat, isReconnecting]
  · intro h1 h2 h3
    have hcond : code ≠ 1000 ∧ code ≠ 1001 := ⟨h1, h2⟩
    have hmax : ¬(s.maxReconnectAttempts ≤ s.reconnectAttempts) := Nat.not_le.mpr h3
    simp [Client.handleClose, hcond, attemptReconnect, Client.stopHeartbeat,
          cancelReconnect, hmax, isReconnecting, List.countP_cons]

/-- Witness for C8 at the freshly connected state receiving an abnormal close
with code 1006: one `reconnecting` event with attempt field 1 and one
scheduled retry timer. -/
theorem C8_retry_scheduled_iff_abnormal_witness :
    (Client.handleClose connectedState 1006 0).2.countP isReconnecting = 1 ∧
    ClientEvent.reconnecting (connectedState.reconnectAttempts + 1)
        connectedState.maxReconnectAttempts
        (reconnectDelay connectedState.reconnectAttempts 0)
      ∈ (Client.handleClose connectedState 1006 0).2 ∧
    (Client.handleClose connectedState 1006 0).1.reconnectTimeout
      = some (reconnectDelay connectedState.reconnectAttempts 0) :=
  (C8_retry_scheduled_iff_abnormal connectedState 1006 0).2
    (by decide) (by decide) (by decide)

theorem run_succ (n : Nat) (s : ClientState) :
    Client.run (n + 1) s
      = ((Client.run n (Client.step s).1).1,
         (Client.step s).2 ++ (Client.run n (Client.step s).1).2) := rfl

theorem run_stuck {s : ClientState} (h : s.hasSocket = false) (n : Nat) :
    Client.run n s = (s, []) := by
  induction n with
  | zero => rfl
  | succ n ih =>
    have hstep : Client.step s = (s, []) := by
      unfold Client.step
      rw [if_neg (by simp [h])]
    rw [run_succ, hstep]
    simp [ih]

theorem run_add (a b : Nat) (s : ClientState) :
    Client.run (a + b) s
      = ((Client.run b (Client.run a s).1).1,
         (Client.run a s).2 ++ (Client.run b (Client.run a s).1).2) := by
  induction a generalizing s with
  | zero =>
    simp [Nat.zero_add, Client.run]
  | succ a ih =>
    rw [Nat.succ_add, run_succ, run_succ a s, ih ((Client.step s).1)]
    simp [List.append_assoc]

/-- C9: under a schedule in which every connection attempt ends in an
abnormal closure with no intervening successful open, the client makes
exactly `maxReconnectAttempts` (10) reconnection attempts, the closure of the
last one fires exactly one `reconnect_failed` event, and from that point no
retry timer is pending and no further connection attempt is ever made
(connection attempts stay at the initial one plus the 10 reconnects), while a
successful open would have reset the attempt counter to 0. -/
theorem C9_reconnect_exhaustion :
    (∀ n, maxReconnectAttemptsDefault + 1 ≤ n →
      ((Client.run n connectedState).2.countP isReconnectFailed = 1 ∧
       (Client.run n connectedState).1.reconnectTimeout = none ∧
       (Client.run n connectedState).1.hasSocket = false ∧
       (Client.run n connectedState).1.connectionsOpened
         = 1 + maxReconnectAttemptsDefault)) ∧
    (∀ s, (Client.handleOpen s).1.reconnectAttempts = 0) := by
  constructor
  · intro n hn
    have hn' : 11 ≤ n := hn
    obtain ⟨m, rfl⟩ : ∃ m, n = 11 + m := ⟨n - 11, by omega⟩
    have hstate : (Client.run 11 connectedState).1
        = { isConnected := false, reconnectAttempts := 10, maxReconnectAttempts := 10,
            reconnectTimeout := none, heartbeatInterval := false, hasSocket := false,
            url := "wss://host/ws?token=jwt", connectionsOpened := 11 } := by decide
    have hcount : (Client.run 11 connectedState).2.countP isReconnectFailed = 1 := by decide
    have hF : ((Client.run 11 connectedState).1).hasSocket = false := by rw [hstate]
    rw [run_add 11 m, run_stuck hF m]
    refine ⟨?_, ?_, ?_, ?_⟩
    · simpa using hcount
    · rw [hstate]
    · rw [hstate]
    · rw [hstate]
      rfl
  · intro s
    rfl

/-- Witness for C9 at twelve rounds of the failing schedule. -/
theorem C9_reconnect_exhaustion_witness :
    (Client.run 12 connectedState).2.countP isReconnectFailed = 1 ∧
    (Client.run 12 connectedState).1.reconnectTimeout = none ∧
    (Client.run 12 connectedState).1.hasSocket = false ∧
    (Client.run 12 connectedState).1.connectionsOpened
      = 1 + maxReconnectAttemptsDefault :=
  C9_reconnect_exhaustion.1 12 (by decide)

theorem runCallbacks_catch (ls : List Listener) (d : Nat) :
    runCallbacks true ls d = (ls.map (fun l => (l.id, d)), false) := by
  induction ls with
  | nil => rfl
  | cons l rest ih => simp [runCallbacks, ih]

/-- C10: event dispatch on the client wraps every listener callback in its own
try/catch, so a throwing listener never prevents the remaining listeners from
being invoked with the same event data, and the dispatch itself never
propagates an exception to its caller. -/
theorem C10_listener_fault_isolation (m : ListenerMap) (ty : String) (data : Nat) :
    (notifyMessageListeners m ty data).2 = false ∧
    (notifyMessageListeners m ty data).1
      = (listenersFor m ty).map (fun l => (l.id, data)) := by
  unfold notifyMessageListeners listenersFor
  cases h : lookupListeners m ty with
  | none => simp
  | some ls =>
    by_cases hlen : ls.length = 0
    · rcases List.length_eq_zero.mp hlen with rfl
      simp
    · simp [hlen, runCallbacks_catch]

end ReconnectClaims

end AiChat
